import Mathlib

/-!
whistlestop: attire recommendation service

A shallow embedding of the Go packages `weather`, `attire` and `transport`.

* A Go `error` value is `Option Error`: `none` is `nil`.
* A Go `float32` is modelled by the value it denotes (`Float32`): NaN, the two
  infinities, or a finite rational. Every finite `float32` is a rational, so
  statements over all `Float32` cover every machine value. Ordered comparison
  follows IEEE 754: every comparison with NaN is false. The arithmetic of
  `float32` (rounding) is not modelled; the one place the program computes
  with it takes the operation as a parameter.
* The `Forecaster` interface is a state-passing function: an implementation may
  keep state or consult the outside, which is the state type `σ`.
* Calls of `Service.Recommend` and of the forecaster are recorded, in order, in
  the `trace` of the `World`, so that "is never invoked" can be stated.
-/

set_option linter.dupNamespace false

namespace Whistlestop

/-! ## Go values -/

/-- Go `error` values that are not nil; `Option Error` is the Go type `error`. -/
structure Error where
  msg : String
  deriving DecidableEq, Repr

/-- Values of Go `float32`: not-a-number, the infinities, and the finite values. -/
inductive Float32 where
  | nan
  | negInf
  | posInf
  | finite (q : ℚ)
  deriving DecidableEq

namespace Float32

/-- Go `a < b` on `float32` (IEEE 754: false when either side is NaN). -/
def lt : Float32 → Float32 → Bool
  | nan, _ => false
  | _, nan => false
  | negInf, negInf => false
  | negInf, _ => true
  | _, negInf => false
  | posInf, _ => false
  | finite _, posInf => true
  | finite a, finite b => decide (a < b)

/-- Go `a == b` on `float32` (IEEE 754: false when either side is NaN). -/
def eq : Float32 → Float32 → Bool
  | nan, _ => false
  | _, nan => false
  | negInf, negInf => true
  | posInf, posInf => true
  | finite a, finite b => decide (a = b)
  | _, _ => false

/-- Go `a >= b` on `float32` (IEEE 754: false when either side is NaN). -/
def ge (a b : Float32) : Bool := lt b a || eq a b

/-- The zero value of `float32`. -/
def zero : Float32 := finite 0

/-- The constant `20.0` of `Service.Recommend`. -/
def twenty : Float32 := finite 20

end Float32

/-! ## package weather -/

/-- The struct `weather.Weather`. -/
structure Weather where
  Temp : Float32
  Weather : String
  deriving DecidableEq

/-- The Go zero value `weather.Weather{}`. -/
def Weather.zero : Whistlestop.Weather := { Temp := Float32.zero, Weather := "" }

/-! ## package attire -/

/-- The anonymous struct type of the field `Attire.Jacket`. -/
structure Jacket where
  Waterproof : Bool
  Windproof : Bool
  deriving DecidableEq, Repr

/-- The struct `attire.Attire`. -/
structure Attire where
  Jacket : Jacket
  Pants : String
  Umbrella : Bool
  deriving DecidableEq, Repr

/-- The Go zero value `Attire{}`. -/
def Attire.zero : Attire :=
  { Jacket := { Waterproof := false, Windproof := false }, Pants := "", Umbrella := false }

/-- A method call the program makes, as recorded in the trace. -/
inductive Call where
  | Recommend (location : String)
  | GetWeather (location : String)
  deriving DecidableEq, Repr

/-- The state a request runs in: the forecaster's own state (its memory, the
network it talks to) and the calls made so far, oldest first. -/
structure World (σ : Type) where
  fstate : σ
  trace : List Call

/-- The interface `attire.Forecaster`: one method, which may read and change
the forecaster's state. It returns a `weather.Weather` and an `error`. -/
structure Forecaster (σ : Type) where
  GetWeather : String → σ → (Weather × Option Error) × σ

/-- A call of the interface method `GetWeather`: the call is recorded, then the
implementation runs on the forecaster's state. -/
def Forecaster.call {σ : Type} (f : Forecaster σ) (location : String) (world : World σ) :
    (Weather × Option Error) × World σ :=
  let r := f.GetWeather location world.fstate
  (r.1, { fstate := r.2, trace := world.trace ++ [Call.GetWeather location] })

/-- The struct `attire.Service`. -/
structure Service (σ : Type) where
  f : Forecaster σ

/-- The constructor `attire.New`; a nil interface value is `none`. -/
def New {σ : Type} (f : Option (Forecaster σ)) : Option (Service σ) × Option Error :=
  match f with
  | none => (none, some { msg := "invalid forecaster" })
  | some f => (some { f := f }, none)

/-- The method `(*Service).Recommend` of `attire/service.go`. -/
def Service.Recommend {σ : Type} (s : Service σ) (location : String) (world : World σ) :
    (Attire × Option Error) × World σ :=
  let world := { world with trace := world.trace ++ [Call.Recommend location] }
  let r := s.f.call location world
  let w := r.1.1
  let world := r.2
  match r.1.2 with
  | some err => ((Attire.zero, some err), world)
  | none =>
    -- Set some defaults
    let a : Attire := { Attire.zero with Umbrella := false }
    let a : Attire := if w.Weather = "Rain" then { a with Umbrella := true } else a
    let a : Attire :=
      if Float32.lt w.Temp Float32.twenty then
        { a with Pants := "trousers", Jacket := { Waterproof := true, Windproof := true } }
      else
        { a with Pants := "shorts", Jacket := { Waterproof := true, Windproof := false } }
    ((a, none), world)

/-- The test double `weatherMock` of `attire/service_test.go`; it has no state. -/
def weatherMock : Forecaster Unit where
  GetWeather := fun location st =>
    if location = "Manchester" then
      (({ Weather := "Rain", Temp := Float32.finite 21 }, none), st)
    else
      ((Weather.zero, none), st)

/-- A forecaster that fails every lookup with the same error. -/
def failingForecaster : Forecaster Unit where
  GetWeather := fun _ st => ((Weather.zero, some { msg := "lookup failed" }), st)

/-- A forecaster that reports one fixed observation for every location. -/
def constForecaster (w : Weather) : Forecaster Unit where
  GetWeather := fun _ st => ((w, none), st)

/-- A forecaster with state: it counts its calls, and reports `Rain`, 21.0 from
the second call on and the zero observation on the first. -/
def countingForecaster : Forecaster Nat where
  GetWeather := fun _ n =>
    if n = 0 then ((Weather.zero, none), n + 1)
    else (({ Weather := "Rain", Temp := Float32.finite 21 }, none), n + 1)

/-- The world before any call, for a forecaster without state. -/
def World.init : World Unit := { fstate := (), trace := [] }

/-! ## package weather: the client -/

/-- The anonymous struct `b` that `client.GetWeather` decodes the upstream
response into. -/
structure Payload where
  Main : String
  Description : String
  Location : String
  TempMin : Float32
  TempMax : Float32
  WindSpeed : Int
  WindDirection : String

/-- The Go zero value of the struct `b`. -/
def Payload.zero : Payload :=
  { Main := "", Description := "", Location := "", TempMin := Float32.zero,
    TempMax := Float32.zero, WindSpeed := 0, WindDirection := "" }

/-- What `client.GetWeather` uses from outside the repository. A request is
modelled by its URL and a response by its body.
* `NewRequest url` is `http.NewRequest(http.MethodGet, url, nil)`: the error
  is not nil when the URL does not parse;
* `Do url` is `http.DefaultClient.Do(req)`: the response body and the error;
* `Decode body` is `json.NewDecoder(resp.Body).Decode(&b)`: the value of `b`
  afterwards and the error;
* `div` and `mul` are division and multiplication of `float32`. -/
structure Upstream where
  NewRequest : String → String × Option Error
  Do : String → String × Option Error
  Decode : String → Payload × Option Error
  div : Float32 → Float32 → Float32
  mul : Float32 → Float32 → Float32

/-- The struct `weather.client`. -/
structure client where
  url : String

/-- The constructor `weather.New`, which never fails. -/
def client.New (url : String) : client × Option Error := ({ url := url }, none)

/-- The method `(*client).GetWeather` of `weather/client.go`. -/
def client.GetWeather (c : client) (up : Upstream) (location : String) : Weather × Option Error :=
  let url := c.url ++ "?location=" ++ location
  let req := up.NewRequest url
  match req.2 with
  | some err => (Weather.zero, some err)
  | none =>
    let resp := up.Do req.1
    match resp.2 with
    | some err => (Weather.zero, some err)
    | none =>
      let d := up.Decode resp.1
      let b := d.1
      match d.2 with
      | some _ => (Weather.zero, none)
      | none =>
        ({ Temp := up.mul (up.div b.TempMin b.TempMax) (Float32.finite 100), Weather := b.Main },
          none)

/-- The client as an `attire.Forecaster`, as `main` wires it: the forecaster's
state is the upstream it talks to. -/
def client.forecaster (c : client) : Forecaster Upstream where
  GetWeather := fun location up => (c.GetWeather up location, up)

/-- An upstream that answers every request with an empty body, which is not a
JSON document: the decoder reports `EOF`. -/
def emptyBodyUpstream : Upstream where
  NewRequest := fun url => (url, none)
  Do := fun _ => ("", none)
  Decode := fun body =>
    if body = "" then (Payload.zero, some { msg := "EOF" }) else (Payload.zero, none)
  div := fun _ _ => Float32.nan
  mul := fun _ _ => Float32.nan

/-! ## package transport -/

/-- The map `url.Values` that `r.URL.Query()` returns: the values given for a
key, in order; a key that is absent has none. -/
structure Values where
  m : String → List String

/-- The method `url.Values.Get`: the first value of the key, or the empty string. -/
def Values.Get (v : Values) (key : String) : String :=
  match v.m key with
  | [] => ""
  | x :: _ => x

/-- An incoming `*http.Request`, as far as the handler reads it. -/
structure Request where
  query : Values

/-- The `http.ResponseWriter` as the handler drives it: the header map, the
status code once the header is written (`none` before), and the body written. -/
structure ResponseWriter where
  header : List (String × String)
  status : Option Nat
  body : String
  deriving DecidableEq, Repr

/-- The response writer a handler is given: nothing written yet. -/
def ResponseWriter.fresh : ResponseWriter := { header := [], status := none, body := "" }

/-- The constant `http.StatusBadRequest`. -/
def StatusBadRequest : Nat := 400

/-- The constant `http.StatusInternalServerError`. -/
def StatusInternalServerError : Nat := 500

/-- The constant `http.StatusOK`. -/
def StatusOK : Nat := 200

/-- The method `WriteHeader`: the first call fixes the status code, a later one
changes nothing. -/
def ResponseWriter.WriteHeader (w : ResponseWriter) (code : Nat) : ResponseWriter :=
  match w.status with
  | some _ => w
  | none => { w with status := some code }

/-- The call `w.Header().Set(key, value)`: the entry of the key is replaced. -/
def ResponseWriter.HeaderSet (w : ResponseWriter) (key value : String) : ResponseWriter :=
  { w with header := (key, value) :: w.header.filter (fun kv => kv.1 ≠ key) }

/-- The function `bodyAllowedForStatus` of `net/http`. -/
def bodyAllowedForStatus (status : Nat) : Bool :=
  if 100 ≤ status ∧ status ≤ 199 then false
  else if status = 204 then false
  else if status = 304 then false
  else true

/-- The method `Write`: writes the header with status 200 when none was written,
then appends to the body when the status allows one. -/
def ResponseWriter.Write (w : ResponseWriter) (p : String) : ResponseWriter :=
  let w := w.WriteHeader StatusOK
  match w.status with
  | some code => if bodyAllowedForStatus code then { w with body := w.body ++ p } else w
  | none => w

/-- The lower-case hexadecimal digit of a number below 16. -/
def hexDigit (n : Nat) : Char := Char.ofNat (if n < 10 then 48 + n else 87 + n)

/-- The escape `\u` followed by the four hexadecimal digits of the code point. -/
def unicodeEscape (n : Nat) : List Char :=
  [Char.ofNat 92, Char.ofNat 117, hexDigit (n / 4096 % 16), hexDigit (n / 256 % 16),
    hexDigit (n / 16 % 16), hexDigit (n % 16)]

/-- How `encoding/json` writes one character of a string, with the HTML
escaping that an `Encoder` has on by default. -/
def jsonEscape (c : Char) : List Char :=
  let n := c.toNat
  if n = 34 then [Char.ofNat 92, Char.ofNat 34]
  else if n = 92 then [Char.ofNat 92, Char.ofNat 92]
  else if n = 8 then [Char.ofNat 92, Char.ofNat 98]
  else if n = 12 then [Char.ofNat 92, Char.ofNat 102]
  else if n = 10 then [Char.ofNat 92, Char.ofNat 110]
  else if n = 13 then [Char.ofNat 92, Char.ofNat 114]
  else if n = 9 then [Char.ofNat 92, Char.ofNat 116]
  else if n < 32 ∨ n = 60 ∨ n = 62 ∨ n = 38 ∨ n = 8232 ∨ n = 8233 then unicodeEscape n
  else [c]

/-- The JSON text of a Go string. -/
def jsonString (s : String) : String :=
  "\"" ++ String.mk (s.data.flatMap jsonEscape) ++ "\""

/-- The JSON text of a Go bool. -/
def jsonBool (b : Bool) : String := if b then "true" else "false"

/-- The JSON text `json.Marshal` gives an `Attire`: the exported fields in
declaration order under their Go names. -/
def marshalAttire (a : Attire) : String :=
  "\x7b\"Jacket\":\x7b\"Waterproof\":" ++ jsonBool a.Jacket.Waterproof ++
    ",\"Windproof\":" ++ jsonBool a.Jacket.Windproof ++
    "\x7d,\"Pants\":" ++ jsonString a.Pants ++
    ",\"Umbrella\":" ++ jsonBool a.Umbrella ++ "\x7d"

/-- The call `json.NewEncoder(w).Encode(attire)`: one write of the JSON text
followed by a newline. -/
def Encode (w : ResponseWriter) (a : Attire) : ResponseWriter :=
  w.Write (marshalAttire a ++ "\n")

/-- The handler that `transport.Serve` registers for `/v1/weather`. The log
line it prints is not modelled. -/
def Serve.handler {σ : Type} (attire : Service σ) (w : ResponseWriter) (r : Request)
    (world : World σ) : ResponseWriter × World σ :=
  let area := r.query.Get "location"
  if area = "" then
    (w.WriteHeader StatusBadRequest, world)
  else
    let res := attire.Recommend area world
    let a := res.1.1
    let w := match res.1.2 with
      | some _ => w.WriteHeader StatusInternalServerError
      | none => w
    let w := w.HeaderSet "Content-Type" "application/json"
    (Encode w a, res.2)

/-- The request `GET /v1/weather?location=<name>`. -/
def Request.withLocation (name : String) : Request :=
  { query := { m := fun key => if key = "location" then [name] else [] } }

/-- The request `GET /v1/weather`, with no query. -/
def Request.noQuery : Request := { query := { m := fun _ => [] } }

end Whistlestop

namespace Whistlestop

/-! ## The decision rules of `Service.Recommend` -/

/-- Go `>=` and `<` on `float32` exclude each other. -/
theorem Float32.lt_eq_false_of_ge (a b : Float32) (h : Float32.ge a b = true) :
    Float32.lt a b = false := by
  cases a <;> cases b <;> simp_all [Float32.ge, Float32.lt, Float32.eq]
  rcases h with h | h
  · exact le_of_lt h
  · exact le_of_eq h.symm

/-- When the forecaster succeeds with `w`, `Recommend` returns the attire the
two rules derive from `w`, and a nil error. -/
theorem Recommend_of_ok {σ : Type} (s : Service σ) (location : String) (world : World σ)
    (w : Weather) (hok : (s.f.GetWeather location world.fstate).1 = (w, none)) :
    (s.Recommend location world).1 =
      ({ Jacket := { Waterproof := true, Windproof := Float32.lt w.Temp Float32.twenty },
         Pants := if Float32.lt w.Temp Float32.twenty = true then "trousers" else "shorts",
         Umbrella := decide (w.Weather = "Rain") }, none) := by
  have h1 : (s.f.GetWeather location world.fstate).1.1 = w := by rw [hok]
  have h2 : (s.f.GetWeather location world.fstate).1.2 = none := by rw [hok]
  simp only [Service.Recommend, Forecaster.call, h1, h2]
  by_cases hr : w.Weather = "Rain" <;>
    by_cases ht : Float32.lt w.Temp Float32.twenty = true <;>
    simp [hr, ht, Attire.zero]

/-- When the forecaster fails, `Recommend` returns the zero `Attire` and the
forecaster's error. -/
theorem Recommend_of_err {σ : Type} (s : Service σ) (location : String) (world : World σ)
    (err : Error) (herr : (s.f.GetWeather location world.fstate).1.2 = some err) :
    (s.Recommend location world).1 = (Attire.zero, some err) := by
  simp only [Service.Recommend, Forecaster.call, herr]

/-- The error `Recommend` returns is the error the forecaster returned. -/
theorem Recommend_error_eq {σ : Type} (s : Service σ) (location : String) (world : World σ) :
    (s.Recommend location world).1.2 = (s.f.GetWeather location world.fstate).1.2 := by
  cases herr : (s.f.GetWeather location world.fstate).1.2 with
  | none =>
    have hok : (s.f.GetWeather location world.fstate).1 =
        ((s.f.GetWeather location world.fstate).1.1, none) := by
      rw [← herr]
    rw [Recommend_of_ok s location world _ hok]
  | some err => rw [Recommend_of_err s location world err herr]

/-- A call of `Recommend` adds to the trace the call itself and one call of the
forecaster with the same location. -/
theorem Recommend_trace {σ : Type} (s : Service σ) (location : String) (world : World σ) :
    (s.Recommend location world).2.trace =
      world.trace ++ [Call.Recommend location, Call.GetWeather location] := by
  simp only [Service.Recommend, Forecaster.call]
  cases (s.f.GetWeather location world.fstate).1.2 <;> simp

/-- C1: when the forecaster succeeds with an observation whose temperature is
strictly below 20.0, whatever its condition label, `Recommend` returns trousers
and a jacket that is windproof and waterproof. -/
theorem Recommend_below_twenty {σ : Type} (s : Service σ) (location : String)
    (world : World σ) (w : Weather)
    (hok : (s.f.GetWeather location world.fstate).1 = (w, none))
    (hcold : Float32.lt w.Temp Float32.twenty = true) :
    (s.Recommend location world).1.1.Pants = "trousers" ∧
      (s.Recommend location world).1.1.Jacket.Windproof = true ∧
      (s.Recommend location world).1.1.Jacket.Waterproof = true := by
  rw [Recommend_of_ok s location world w hok]
  simp [hcold]

/-- Witness of C1: the observation `Clear`, 10.0 of the second scenario. -/
theorem Recommend_below_twenty_witness :
    ((constForecaster { Temp := Float32.finite 10, Weather := "Clear" }).GetWeather "Leeds"
        World.init.fstate).1 = ({ Temp := Float32.finite 10, Weather := "Clear" }, none) ∧
      Float32.lt (Float32.finite 10) Float32.twenty = true ∧
      (Service.Recommend { f := constForecaster { Temp := Float32.finite 10, Weather := "Clear" } }
        "Leeds" World.init).1.1.Pants = "trousers" ∧
      (Service.Recommend { f := constForecaster { Temp := Float32.finite 10, Weather := "Clear" } }
        "Leeds" World.init).1.1.Jacket.Windproof = true ∧
      (Service.Recommend { f := constForecaster { Temp := Float32.finite 10, Weather := "Clear" } }
        "Leeds" World.init).1.1.Jacket.Waterproof = true :=
  ⟨rfl, by decide,
    Recommend_below_twenty { f := constForecaster { Temp := Float32.finite 10, Weather := "Clear" } }
      "Leeds" World.init { Temp := Float32.finite 10, Weather := "Clear" } rfl (by decide)⟩

/-- C2: when the forecaster succeeds with an observation whose temperature is
at least 20.0 (20.0 itself included), whatever its condition label, `Recommend`
returns shorts and a jacket that is waterproof and not windproof; for the
observation `Rain`, 21.0 of the test the whole result is the expected attire. -/
theorem Recommend_at_least_twenty {σ : Type} (s : Service σ) (location : String)
    (world : World σ) (w : Weather)
    (hok : (s.f.GetWeather location world.fstate).1 = (w, none))
    (hwarm : Float32.ge w.Temp Float32.twenty = true) :
    (s.Recommend location world).1.1.Pants = "shorts" ∧
      (s.Recommend location world).1.1.Jacket.Windproof = false ∧
      (s.Recommend location world).1.1.Jacket.Waterproof = true ∧
      (w = { Temp := Float32.finite 21, Weather := "Rain" } →
        (s.Recommend location world).1.1 =
          { Jacket := { Waterproof := true, Windproof := false }, Pants := "shorts",
            Umbrella := true }) := by
  have hlt := Float32.lt_eq_false_of_ge _ _ hwarm
  rw [Recommend_of_ok s location world w hok]
  simp only [hlt]
  refine ⟨by simp, trivial, trivial, ?_⟩
  intro hw
  subst hw
  simp

/-- Witness of C2: a forecaster reporting exactly 20.0, and the test double at
`Manchester`, which reports `Rain`, 21.0. -/
theorem Recommend_at_least_twenty_witness :
    (((constForecaster { Temp := Float32.finite 20, Weather := "Clouds" }).GetWeather "Leeds"
          World.init.fstate).1 = ({ Temp := Float32.finite 20, Weather := "Clouds" }, none) ∧
        Float32.ge (Float32.finite 20) Float32.twenty = true ∧
        (Service.Recommend
          { f := constForecaster { Temp := Float32.finite 20, Weather := "Clouds" } }
          "Leeds" World.init).1.1.Pants = "shorts" ∧
        (Service.Recommend
          { f := constForecaster { Temp := Float32.finite 20, Weather := "Clouds" } }
          "Leeds" World.init).1.1.Jacket.Windproof = false ∧
        (Service.Recommend
          { f := constForecaster { Temp := Float32.finite 20, Weather := "Clouds" } }
          "Leeds" World.init).1.1.Jacket.Waterproof = true) ∧
      ((weatherMock.GetWeather "Manchester" World.init.fstate).1 =
          ({ Temp := Float32.finite 21, Weather := "Rain" }, none) ∧
        Float32.ge (Float32.finite 21) Float32.twenty = true ∧
        (Service.Recommend { f := weatherMock } "Manchester" World.init).1.1 =
          { Jacket := { Waterproof := true, Windproof := false }, Pants := "shorts",
            Umbrella := true }) :=
  ⟨⟨rfl, by decide,
      (Recommend_at_least_twenty
        { f := constForecaster { Temp := Float32.finite 20, Weather := "Clouds" } }
        "Leeds" World.init { Temp := Float32.finite 20, Weather := "Clouds" } rfl
        (by decide)).1,
      (Recommend_at_least_twenty
        { f := constForecaster { Temp := Float32.finite 20, Weather := "Clouds" } }
        "Leeds" World.init { Temp := Float32.finite 20, Weather := "Clouds" } rfl
        (by decide)).2.1,
      (Recommend_at_least_twenty
        { f := constForecaster { Temp := Float32.finite 20, Weather := "Clouds" } }
        "Leeds" World.init { Temp := Float32.finite 20, Weather := "Clouds" } rfl
        (by decide)).2.2.1⟩,
    ⟨rfl, by decide,
      (Recommend_at_least_twenty { f := weatherMock } "Manchester" World.init
        { Temp := Float32.finite 21, Weather := "Rain" } rfl (by decide)).2.2.2 rfl⟩⟩

/-- C3: when the forecaster succeeds, the umbrella is recommended if and only if
the condition label is exactly the string `Rain`, whatever the temperature. -/
theorem Recommend_umbrella_iff_rain {σ : Type} (s : Service σ) (location : String)
    (world : World σ) (w : Weather)
    (hok : (s.f.GetWeather location world.fstate).1 = (w, none)) :
    ((s.Recommend location world).1.1.Umbrella = true ↔ w.Weather = "Rain") := by
  rw [Recommend_of_ok s location world w hok]
  simp

/-- Witness of C3: the test double at `Manchester`, where it rains. -/
theorem Recommend_umbrella_iff_rain_witness :
    (weatherMock.GetWeather "Manchester" World.init.fstate).1 =
        ({ Temp := Float32.finite 21, Weather := "Rain" }, none) ∧
      ((Service.Recommend { f := weatherMock } "Manchester" World.init).1.1.Umbrella = true ↔
        (Weather.Weather { Temp := Float32.finite 21, Weather := "Rain" }) = "Rain") :=
  ⟨rfl, Recommend_umbrella_iff_rain { f := weatherMock } "Manchester" World.init
    { Temp := Float32.finite 21, Weather := "Rain" } rfl⟩

/-! ## Errors of `Service.Recommend` -/

/-- C4: `Recommend` returns an error if and only if the forecaster does, the
error is then the forecaster's own, unchanged, and the attire is the zero value
(no rule was applied); when the forecaster succeeds the error is nil, whatever
the observation. -/
theorem Recommend_error_iff_forecaster_error {σ : Type} (s : Service σ) (location : String)
    (world : World σ) :
    ((s.Recommend location world).1.2 ≠ none ↔
        (s.f.GetWeather location world.fstate).1.2 ≠ none) ∧
      (s.Recommend location world).1.2 = (s.f.GetWeather location world.fstate).1.2 ∧
      ((s.f.GetWeather location world.fstate).1.2 ≠ none →
        (s.Recommend location world).1.1 = Attire.zero) ∧
      (∀ w : Weather, (s.f.GetWeather location world.fstate).1 = (w, none) →
        (s.Recommend location world).1.2 = none) := by
  have key := Recommend_error_eq s location world
  refine ⟨by rw [key], key, ?_, ?_⟩
  · intro hne
    obtain ⟨err, he⟩ := Option.ne_none_iff_exists'.mp hne
    rw [Recommend_of_err s location world err he]
  · intro w hok
    rw [key, hok]

/-- Counterexample to C5: with the test double as forecaster, `Recommend` of the
empty location returns a nil error and an attire, after calling `GetWeather`
with the empty location. -/
theorem Recommend_empty_location_not_rejected :
    (Service.Recommend { f := weatherMock } "" World.init).1 =
        ({ Jacket := { Waterproof := true, Windproof := true }, Pants := "trousers",
           Umbrella := false }, none) ∧
      (Service.Recommend { f := weatherMock } "" World.init).2.trace =
        [Call.Recommend "", Call.GetWeather ""] := by
  decide

/-- C5, amended: `Recommend` does not check the location. For the empty
location it calls the forecaster once, with the empty location, and returns the
forecaster's error, nil or not; it is the HTTP handler that rejects an empty
location, with status 400 and before any call of `Recommend` or the forecaster. -/
theorem Recommend_empty_location_forwarded {σ : Type} (s : Service σ) (world : World σ) :
    (s.Recommend "" world).2.trace = world.trace ++ [Call.Recommend "", Call.GetWeather ""] ∧
      (s.Recommend "" world).1.2 = (s.f.GetWeather "" world.fstate).1.2 ∧
      (Serve.handler s ResponseWriter.fresh (Request.withLocation "") world).1.status =
        some StatusBadRequest ∧
      (Serve.handler s ResponseWriter.fresh (Request.withLocation "") world).2 = world := by
  refine ⟨Recommend_trace s "" world, Recommend_error_eq s "" world, ?_, ?_⟩
  · simp [Serve.handler, Request.withLocation, Values.Get, ResponseWriter.WriteHeader,
      ResponseWriter.fresh]
  · simp [Serve.handler, Request.withLocation, Values.Get]

/-! ## The HTTP handler -/

/-- Whenever `Recommend` fails for a non-empty location, the handler answers a
fresh request with status 500 and writes the JSON text of the zero `Attire`. -/
theorem handler_of_error {σ : Type} (attire : Service σ) (r : Request) (world : World σ)
    (hloc : r.query.Get "location" ≠ "")
    (herr : (attire.Recommend (r.query.Get "location") world).1.2 ≠ none) :
    (Serve.handler attire ResponseWriter.fresh r world).1 =
      { header := [("Content-Type", "application/json")],
        status := some StatusInternalServerError,
        body := marshalAttire Attire.zero ++ "\n" } := by
  have hfe : (attire.f.GetWeather (r.query.Get "location") world.fstate).1.2 ≠ none :=
    Recommend_error_eq attire _ world ▸ herr
  obtain ⟨err, he⟩ := Option.ne_none_iff_exists'.mp hfe
  have hrec := Recommend_of_err attire _ world err he
  simp only [Serve.handler, hloc, if_false, hrec]
  decide

/-- C6, at a failing request: for `GET /v1/weather?location=London` and a
forecaster that fails, the handler answers status 500 and the body is not
empty: it is the JSON text of the zero `Attire`. -/
theorem handler_error_body_not_empty :
    (Service.Recommend { f := failingForecaster } "London" World.init).1.2 =
        some { msg := "lookup failed" } ∧
      (Serve.handler { f := failingForecaster } ResponseWriter.fresh
        (Request.withLocation "London") World.init).1.status = some 500 ∧
      (Serve.handler { f := failingForecaster } ResponseWriter.fresh
        (Request.withLocation "London") World.init).1.body =
        "\x7b\"Jacket\":\x7b\"Waterproof\":false,\"Windproof\":false\x7d,\"Pants\":\"\",\"Umbrella\":false\x7d\n" ∧
      (Serve.handler { f := failingForecaster } ResponseWriter.fresh
        (Request.withLocation "London") World.init).1.body ≠ "" := by
  decide

/-- C7: when the `location` parameter is missing or empty, the handler answers
status 400, writes no body, and calls neither `Recommend` nor the forecaster:
the world, its trace included, is unchanged. -/
theorem handler_missing_location {σ : Type} (attire : Service σ) (r : Request)
    (world : World σ)
    (h : r.query.m "location" = [] ∨ (r.query.m "location").head? = some "") :
    (Serve.handler attire ResponseWriter.fresh r world).1.status = some 400 ∧
      (Serve.handler attire ResponseWriter.fresh r world).1.body = "" ∧
      (Serve.handler attire ResponseWriter.fresh r world).2 = world ∧
      (Serve.handler attire ResponseWriter.fresh r world).2.trace = world.trace := by
  have harea : r.query.Get "location" = "" := by
    unfold Values.Get
    rcases h with h | h
    · rw [h]
    · cases hm : r.query.m "location" with
      | nil => rfl
      | cons x xs =>
        rw [hm] at h
        simpa using h
  simp [Serve.handler, harea, ResponseWriter.WriteHeader, ResponseWriter.fresh,
    StatusBadRequest]

/-- Witness of C7: a request without any query, served by the test double. -/
theorem handler_missing_location_witness :
    (Request.noQuery.query.m "location" = [] ∨
        (Request.noQuery.query.m "location").head? = some "") ∧
      (Serve.handler { f := weatherMock } ResponseWriter.fresh Request.noQuery
        World.init).1.status = some 400 ∧
      (Serve.handler { f := weatherMock } ResponseWriter.fresh Request.noQuery
        World.init).1.body = "" ∧
      (Serve.handler { f := weatherMock } ResponseWriter.fresh Request.noQuery
        World.init).2 = World.init ∧
      (Serve.handler { f := weatherMock } ResponseWriter.fresh Request.noQuery
        World.init).2.trace = World.init.trace :=
  ⟨Or.inl rfl,
    handler_missing_location { f := weatherMock } Request.noQuery World.init (Or.inl rfl)⟩

/-! ## Invariant and purity -/

/-- Counterexample to C8: when the forecaster fails, the `Attire` that
`Recommend` returns has a jacket that is not waterproof. -/
theorem Recommend_error_attire_not_waterproof :
    (Service.Recommend { f := failingForecaster } "London" World.init).1.1.Jacket.Waterproof =
      false := by
  decide

/-- C8, amended: every `Attire` that `Recommend` returns together with a nil
error has a waterproof jacket. -/
theorem Recommend_waterproof_of_nil_error {σ : Type} (s : Service σ) (location : String)
    (world : World σ) (hnil : (s.Recommend location world).1.2 = none) :
    (s.Recommend location world).1.1.Jacket.Waterproof = true := by
  cases herr : (s.f.GetWeather location world.fstate).1.2 with
  | none =>
    have hok : (s.f.GetWeather location world.fstate).1 =
        ((s.f.GetWeather location world.fstate).1.1, none) := by
      rw [← herr]
    rw [Recommend_of_ok s location world _ hok]
  | some err =>
    rw [Recommend_of_err s location world err herr] at hnil
    simp at hnil

/-- Witness of C8, amended: the test double at `Manchester`. -/
theorem Recommend_waterproof_of_nil_error_witness :
    (Service.Recommend { f := weatherMock } "Manchester" World.init).1.2 = none ∧
      (Service.Recommend { f := weatherMock } "Manchester" World.init).1.1.Jacket.Waterproof =
        true :=
  ⟨by decide,
    Recommend_waterproof_of_nil_error { f := weatherMock } "Manchester" World.init (by decide)⟩

/-- C9: two calls of `Recommend`, on any two services, locations and worlds
(forecaster states and earlier calls), in which the forecaster succeeds with the
same observation, return the same attire and a nil error. -/
theorem Recommend_depends_only_on_observation {σ₁ σ₂ : Type} (s₁ : Service σ₁)
    (s₂ : Service σ₂) (location₁ location₂ : String) (world₁ : World σ₁) (world₂ : World σ₂)
    (w : Weather)
    (h₁ : (s₁.f.GetWeather location₁ world₁.fstate).1 = (w, none))
    (h₂ : (s₂.f.GetWeather location₂ world₂.fstate).1 = (w, none)) :
    (s₁.Recommend location₁ world₁).1 = (s₂.Recommend location₂ world₂).1 := by
  rw [Recommend_of_ok s₁ location₁ world₁ w h₁, Recommend_of_ok s₂ location₂ world₂ w h₂]

/-- Witness of C9: the test double at `Manchester` and a forecaster with a
counter as state, asked for `Paris` after an earlier call, both report `Rain`,
21.0. -/
theorem Recommend_depends_only_on_observation_witness :
    (weatherMock.GetWeather "Manchester" World.init.fstate).1 =
        ({ Temp := Float32.finite 21, Weather := "Rain" }, none) ∧
      (countingForecaster.GetWeather "Paris" 1).1 =
        ({ Temp := Float32.finite 21, Weather := "Rain" }, none) ∧
      (Service.Recommend { f := weatherMock } "Manchester" World.init).1 =
        (Service.Recommend { f := countingForecaster } "Paris"
          { fstate := 1, trace := [Call.Recommend "Oslo", Call.GetWeather "Oslo"] }).1 :=
  ⟨rfl, rfl,
    Recommend_depends_only_on_observation { f := weatherMock } { f := countingForecaster }
      "Manchester" "Paris" World.init
      { fstate := 1, trace := [Call.Recommend "Oslo", Call.GetWeather "Oslo"] }
      { Temp := Float32.finite 21, Weather := "Rain" } rfl rfl⟩

/-! ## The weather client -/

/-- Whenever the request is built and answered but the body does not decode,
`GetWeather` returns the zero `Weather` and a nil error. -/
theorem GetWeather_of_decode_error (c : client) (up : Upstream) (location : String)
    (hreq : (up.NewRequest (c.url ++ "?location=" ++ location)).2 = none)
    (hdo : (up.Do (up.NewRequest (c.url ++ "?location=" ++ location)).1).2 = none)
    (hdec : (up.Decode (up.Do (up.NewRequest (c.url ++ "?location=" ++ location)).1).1).2 ≠
      none) :
    c.GetWeather up location = (Weather.zero, none) := by
  obtain ⟨err, he⟩ := Option.ne_none_iff_exists'.mp hdec
  simp only [client.GetWeather, hreq, hdo, he]

/-- C10, at a failing input: the upstream answers with an empty body, which the
decoder rejects, and `GetWeather` reports success (a nil error) together with
the zero `Weather`. -/
theorem GetWeather_undecodable_reports_success :
    (emptyBodyUpstream.Decode
        (emptyBodyUpstream.Do (emptyBodyUpstream.NewRequest "http://upstream?location=London").1).1).2 =
        some { msg := "EOF" } ∧
      client.GetWeather { url := "http://upstream" } emptyBodyUpstream "London" =
        ({ Temp := Float32.finite 0, Weather := "" }, none) := by
  decide

end Whistlestop
